import Mathlib

/-!
Shallow embedding of `internal/service/quicksight/account_subscription.go`
(terraform-provider-aws): lifecycle handlers for the
`aws_quicksight_account_subscription` resource.

Go pointers to strings are modelled as `Option String` (nil = `none`);
a Go nil-pointer field access is modelled explicitly as a `panic` outcome.
The remote API's responses are inputs to the embedded functions: each
handler takes the response (output value and error) that the remote call
would produce and computes the handler's observable result.
-/

namespace QuickSightAccountSubscription

/-- Errors the remote QuickSight API calls can return.
`resourceNotFound` models `awstypes.ResourceNotFoundException`;
`other` models any other SDK error (access denied, throttling, ...). -/
inductive ApiError where
  | resourceNotFound
  | other (msg : String)
  deriving DecidableEq, Repr

/-- `awstypes.AccountInfo` — the fields this file touches.
Go `*string` fields become `Option String`; `Edition` is a non-pointer
enum string in the SDK, hence a plain `String`. -/
structure AccountInfo where
  accountName : Option String
  accountSubscriptionStatus : Option String
  authenticationType : Option String
  edition : String
  iamIdentityCenterInstanceArn : Option String
  notificationEmail : Option String
  deriving DecidableEq, Repr

/-- `quicksight.DescribeAccountSubscriptionOutput`: the `AccountInfo`
pointer may be nil even on a non-error response. -/
structure DescribeAccountSubscriptionOutput where
  accountInfo : Option AccountInfo
  deriving DecidableEq, Repr

/-- `aws.ToString`: dereference a `*string`, yielding `""` for nil. -/
def awsToString : Option String → String
  | none => ""
  | some s => s

/-- The status string constants of the source (`statusCreated` ... ). -/
def statusCreated : String := "ACCOUNT_CREATED"

def statusOk : String := "OK"

def statusSignupAttemptInProgress : String := "SIGNUP_ATTEMPT_IN_PROGRESS"

def statusUnsuscribeInProgress : String := "UNSUBSCRIBE_IN_PROGRESS"

def statusUnsuscribed : String := "UNSUBSCRIBED"

/-- The error value returned by `findAccountSubscriptionByID`:
`notFound` models `&retry.NotFoundError{LastError: err, LastRequest: in}`,
`passthrough` the raw SDK error returned verbatim, and `emptyResult`
`tfresource.NewEmptyResultError(in)`. -/
inductive FindError where
  | notFound (lastError : ApiError)
  | passthrough (e : ApiError)
  | emptyResult
  deriving DecidableEq, Repr

/-- `tfresource.NotFound`: true iff the error unwraps to a
`retry.NotFoundError`.  A nil error is not a not-found error. -/
def tfresourceNotFound : Option FindError → Bool
  | some (FindError.notFound _) => true
  | _ => false

/-- `findAccountSubscriptionByID`, given the describe call's raw result
(`out`, `err`).  Mirrors the Go branch order: the
`ResourceNotFoundException` check first, then the generic error check,
then the structurally-empty check, then success.  The Go function
returns a pair (result pointer, error); both are modelled as `Option`. -/
def findAccountSubscriptionByID (out : Option DescribeAccountSubscriptionOutput)
    (err : Option ApiError) : Option AccountInfo × Option FindError :=
  match err with
  | some ApiError.resourceNotFound =>
      (none, some (FindError.notFound ApiError.resourceNotFound))
  | some e => (none, some (FindError.passthrough e))
  | none =>
      match out with
      | none => (none, some FindError.emptyResult)
      | some o =>
          match o.accountInfo with
          | none => (none, some FindError.emptyResult)
          | some info => (some info, none)

/-- The triple returned by the `retry.StateRefreshFunc` closure built by
`statusAccountSubscription`: `(nil, "", nil)` on not-found, `(nil, "", err)`
on any other error, `(out, *out.AccountSubscriptionStatus, nil)` on
success. -/
inductive RefreshReturn where
  | notFoundTick
  | refreshErr (e : FindError)
  | ok (info : AccountInfo) (s : String)
  deriving DecidableEq, Repr

/-- `statusAccountSubscription`'s closure, given the describe call's raw
result.  `none` models a Go run-time panic: the closure dereferences
`*out.AccountSubscriptionStatus`, which faults if the `AccountInfo`
pointer or its status pointer is nil. -/
def statusAccountSubscription (out : Option DescribeAccountSubscriptionOutput)
    (err : Option ApiError) : Option RefreshReturn :=
  let fr := findAccountSubscriptionByID out err
  if tfresourceNotFound fr.2 then some RefreshReturn.notFoundTick
  else
    match fr.2 with
    | some e => some (RefreshReturn.refreshErr e)
    | none =>
        match fr.1 with
        | none => none
        | some info =>
            match info.accountSubscriptionStatus with
            | none => none
            | some s => some (RefreshReturn.ok info s)

/-- The five attributes `resourceAccountSubscriptionRead` writes back into
state on success (`d.Set` calls). -/
structure ReadSetFields where
  accountName : Option String
  edition : String
  notificationEmail : Option String
  accountSubscriptionStatus : Option String
  iamIdentityCenterInstanceArn : Option String
  deriving DecidableEq, Repr

/-- Observable result of `resourceAccountSubscriptionRead`:
`cleared` = `d.SetId("")` then return with no diagnostics;
`readError` = the `ErrActionReading` diagnostic;
`success` = the `d.Set` write-back, no diagnostics;
`panicNilDeref` = a Go nil-pointer dereference (run-time crash). -/
inductive ReadOutcome where
  | cleared
  | readError (e : FindError)
  | success (fields : ReadSetFields)
  | panicNilDeref
  deriving DecidableEq, Repr

/-- Whether the read outcome clears the local resource id. -/
def ReadOutcome.clearsId : ReadOutcome → Bool
  | ReadOutcome.cleared => true
  | _ => false

/-- The tail of Read after the two absence checks: the generic error
check (line 243) and the `d.Set` write-back (lines 247-251, which
dereference the `AccountInfo` pointer). -/
def readTail (out : Option AccountInfo) (err : Option FindError) : ReadOutcome :=
  match err with
  | some e => ReadOutcome.readError e
  | none =>
      match out with
      | none => ReadOutcome.panicNilDeref
      | some o =>
          ReadOutcome.success
            { accountName := o.accountName
              edition := o.edition
              notificationEmail := o.notificationEmail
              accountSubscriptionStatus := o.accountSubscriptionStatus
              iamIdentityCenterInstanceArn := o.iamIdentityCenterInstanceArn }

/-- `resourceAccountSubscriptionRead`, given `d.IsNewResource()` and the
describe call's raw result.  Mirrors the Go statement order:

1. `!d.IsNewResource() && tfresource.NotFound(err)` → clear id, return;
2. `!d.IsNewResource() && aws.ToString(out.AccountSubscriptionStatus) == statusUnsuscribed`
   → clear id, return.  Go's `&&` short-circuits, so the dereference of
   the `out` pointer happens only when the resource is not new; a nil
   `out` there is a nil-pointer panic, modelled by `panicNilDeref`;
3. generic error check, then the `d.Set` write-back. -/
def resourceAccountSubscriptionRead (isNew : Bool)
    (dOut : Option DescribeAccountSubscriptionOutput)
    (dErr : Option ApiError) : ReadOutcome :=
  let fr := findAccountSubscriptionByID dOut dErr
  if isNew = false ∧ tfresourceNotFound fr.2 = true then ReadOutcome.cleared
  else
    match isNew with
    | true => readTail fr.1 fr.2
    | false =>
        match fr.1 with
        | none => ReadOutcome.panicNilDeref
        | some o =>
            if awsToString o.accountSubscriptionStatus = statusUnsuscribed then
              ReadOutcome.cleared
            else readTail fr.1 fr.2

/-- The resource configuration (`d.Get` / `d.GetOk` view of the schema).
`d.GetOk` reports `ok = false` for a zero value, so an omitted optional
string is the empty string and an omitted optional list is `[]`. -/
structure ResourceConfig where
  accountName : String
  authenticationMethod : String
  edition : String
  notificationEmail : String
  awsAccountId : String
  activeDirectoryName : String
  adminGroup : List String
  authorGroup : List String
  readerGroup : List String
  contactNumber : String
  directoryId : String
  emailAddress : String
  firstName : String
  iamIdentityCenterInstanceArn : String
  lastName : String
  realm : String
  deriving DecidableEq, Repr

/-- `quicksight.CreateAccountSubscriptionInput` — `*string` fields as
`Option String` (none = field absent from the request), Go slices as
`Option (List String)` (none = nil slice, absent), and the two enum
fields as plain strings. -/
structure CreateAccountSubscriptionInput where
  awsAccountId : Option String
  accountName : Option String
  authenticationMethod : String
  edition : String
  notificationEmail : Option String
  activeDirectoryName : Option String
  adminGroup : Option (List String)
  authorGroup : Option (List String)
  readerGroup : Option (List String)
  contactNumber : Option String
  directoryId : Option String
  emailAddress : Option String
  firstName : Option String
  iamIdentityCenterInstanceArn : Option String
  lastName : Option String
  realm : Option String
  deriving DecidableEq, Repr

/-- `d.GetOk` on an optional string attribute: present iff non-zero. -/
def getOkString (s : String) : Option String :=
  if s ≠ "" then some s else none

/-- The guard `if v, ok := d.GetOk(k); ok && len(v.([]interface{})) > 0`
used for the three group lists. -/
def getOkList (l : List String) : Option (List String) :=
  if 0 < l.length then some l else none

/-- The aws account id used by Create: the ambient client account id,
overridden when the configuration supplies a non-empty
`aws_account_id` (lines 150-153). -/
def effectiveAccountId (ambientAccountId : String) (cfg : ResourceConfig) : String :=
  if (getOkString cfg.awsAccountId).isSome then cfg.awsAccountId else ambientAccountId

/-- The request built by `resourceAccountSubscriptionCreate`
(lines 155-205): required fields always set via `aws.String` / enum
conversion, optional fields set only when `d.GetOk` reports them
present. -/
def buildCreateInput (ambientAccountId : String) (cfg : ResourceConfig) :
    CreateAccountSubscriptionInput :=
  { awsAccountId := some (effectiveAccountId ambientAccountId cfg)
    accountName := some cfg.accountName
    authenticationMethod := cfg.authenticationMethod
    edition := cfg.edition
    notificationEmail := some cfg.notificationEmail
    activeDirectoryName := getOkString cfg.activeDirectoryName
    adminGroup := getOkList cfg.adminGroup
    authorGroup := getOkList cfg.authorGroup
    readerGroup := getOkList cfg.readerGroup
    contactNumber := getOkString cfg.contactNumber
    directoryId := getOkString cfg.directoryId
    emailAddress := getOkString cfg.emailAddress
    firstName := getOkString cfg.firstName
    iamIdentityCenterInstanceArn := getOkString cfg.iamIdentityCenterInstanceArn
    lastName := getOkString cfg.lastName
    realm := getOkString cfg.realm }

/-- `awstypes.SignupResponse` — none of its fields are read by this
file; it only matters whether the pointer is nil. -/
structure SignupResponse where
  iamUser : Bool
  userLoginName : Option String
  accountName : Option String
  directoryType : Option String
  deriving DecidableEq, Repr

/-- `quicksight.CreateAccountSubscriptionOutput`: the `SignupResponse`
pointer may be nil on a non-error response (the defensive check at
line 212 guards against exactly that). -/
structure CreateAccountSubscriptionOutput where
  signupResponse : Option SignupResponse
  deriving DecidableEq, Repr

/-- Diagnostics Create can append. -/
inductive CreateDiag where
  | createError
  | waitError
  deriving DecidableEq, Repr

/-- Observable result of `resourceAccountSubscriptionCreate`:
the request sent, the diagnostic (if any), the resource id after the
call (`none` = never set), and whether the final read-back
(`resourceAccountSubscriptionRead` chained at line 222) ran. -/
structure CreateResult where
  requestSent : CreateAccountSubscriptionInput
  diag : Option CreateDiag
  idAfter : Option String
  readPerformed : Bool
  deriving DecidableEq, Repr

/-- A failure of one of the wait helpers — either the underlying refresh
errored, the not-found budget ran out, or the timeout elapsed; Create
and Delete treat all three alike. -/
inductive WaitFailure where
  | timeout
  | refreshFailed
  | notFoundExceeded
  deriving DecidableEq, Repr

/-- `resourceAccountSubscriptionCreate`, given the ambient account id,
the configuration, the create call's raw result (`out`, `err`) and the
outcome of `waitAccountSubscriptionCreated`.  Mirrors the Go order:
build the request; `err != nil` → CreateError; `out == nil ||
out.SignupResponse == nil` → CreateError (id still unset); `d.SetId`
(line 216); wait — failure → WaitError (no read-back); else the chained
read-back. -/
def resourceAccountSubscriptionCreate (ambientAccountId : String)
    (cfg : ResourceConfig) (apiOut : Option CreateAccountSubscriptionOutput)
    (apiErr : Option ApiError) (waitRes : Option WaitFailure) : CreateResult :=
  let input := buildCreateInput ambientAccountId cfg
  match apiErr with
  | some _ =>
      { requestSent := input, diag := some CreateDiag.createError
        idAfter := none, readPerformed := false }
  | none =>
      match apiOut with
      | none =>
          { requestSent := input, diag := some CreateDiag.createError
            idAfter := none, readPerformed := false }
      | some o =>
          match o.signupResponse with
          | none =>
              { requestSent := input, diag := some CreateDiag.createError
                idAfter := none, readPerformed := false }
          | some _ =>
              let rid := effectiveAccountId ambientAccountId cfg
              match waitRes with
              | some _ =>
                  { requestSent := input, diag := some CreateDiag.waitError
                    idAfter := some rid, readPerformed := false }
              | none =>
                  { requestSent := input, diag := none
                    idAfter := some rid, readPerformed := true }

/-- Diagnostics Delete can append. -/
inductive DeleteDiag where
  | deleteError
  | waitError
  deriving DecidableEq, Repr

/-- Observable result of `resourceAccountSubscriptionDelete`: the
diagnostic (if any) and whether `waitAccountSubscriptionDeleted` was
invoked. -/
structure DeleteResult where
  diag : Option DeleteDiag
  waitInvoked : Bool
  deriving DecidableEq, Repr

/-- `errs.IsA[*awstypes.ResourceNotFoundException](err)`. -/
def isResourceNotFound : Option ApiError → Bool
  | some ApiError.resourceNotFound => true
  | _ => false

/-- `resourceAccountSubscriptionDelete`, given the delete call's error
and the outcome of `waitAccountSubscriptionDeleted` (were it reached).
Mirrors the Go order: a `ResourceNotFoundException` from the delete
call returns success immediately (line 266-268, no wait); any other
error → DeleteError; otherwise the wait runs and a wait failure →
WaitError. -/
def resourceAccountSubscriptionDelete (delErr : Option ApiError)
    (waitRes : Option WaitFailure) : DeleteResult :=
  if isResourceNotFound delErr then { diag := none, waitInvoked := false }
  else
    match delErr with
    | some _ => { diag := some DeleteDiag.deleteError, waitInvoked := false }
    | none =>
        match waitRes with
        | some _ => { diag := some DeleteDiag.waitError, waitInvoked := true }
        | none => { diag := none, waitInvoked := true }

/-- The fields of `retry.StateChangeConf` this file sets. -/
structure StateChangeConf where
  pending : List String
  target : List String
  notFoundChecks : Nat
  continuousTargetOccurence : Nat
  deriving DecidableEq, Repr

/-- The `StateChangeConf` built by `waitAccountSubscriptionCreated`
(lines 291-298). -/
def waitAccountSubscriptionCreatedConf : StateChangeConf :=
  { pending := [statusSignupAttemptInProgress]
    target := [statusCreated, statusOk]
    notFoundChecks := 20
    continuousTargetOccurence := 2 }

/-- The `StateChangeConf` built by `waitAccountSubscriptionDeleted`
(lines 309-314): `NotFoundChecks` and `ContinuousTargetOccurence` are
left at their zero values. -/
def waitAccountSubscriptionDeletedConf : StateChangeConf :=
  { pending := [statusCreated, statusOk, statusUnsuscribeInProgress]
    target := [statusUnsuscribed]
    notFoundChecks := 0
    continuousTargetOccurence := 0 }

/-- One observation delivered by the status refresh callback during a
wait: a not-found fetch (`(nil, "", nil)`), a fetch error, or a fetched
status string. -/
inductive RefreshObs where
  | notFound
  | failed
  | status (s : String)
  deriving DecidableEq, Repr

/-- Result of a polling wait over a finite observation sequence. -/
inductive WaitResult where
  | success
  | notFoundGaveUp
  | refreshError
  | timedOut
  deriving DecidableEq, Repr

/-- Modelled from the spec: the generic poll-until-state utility
(`retry.StateChangeConf.WaitForStateContext`, an external framework
helper not under src/) drives both waits.  Per the spec it polls the
refresh callback until a target condition holds or the timeout elapses;
a not-found observation is treated as still pending up to
`notFoundChecks` consecutive occurrences, after which the wait gives
up, and the consecutive count resets whenever the resource is found;
success requires the target status to be observed
`continuousTargetOccurence` times in a row (at least once), a
non-target status resetting the consecutive-target count.  The timeout
is modelled by the observation list running out. -/
def waitForStateAux (conf : StateChangeConf) :
    List RefreshObs → Nat → Nat → WaitResult
  | [], _, _ => WaitResult.timedOut
  | o :: rest, nfTick, tgtOcc =>
      match o with
      | RefreshObs.failed => WaitResult.refreshError
      | RefreshObs.notFound =>
          if conf.notFoundChecks < nfTick + 1 then WaitResult.notFoundGaveUp
          else waitForStateAux conf rest (nfTick + 1) tgtOcc
      | RefreshObs.status s =>
          if s ∈ conf.target then
            if max 1 conf.continuousTargetOccurence ≤ tgtOcc + 1 then
              WaitResult.success
            else waitForStateAux conf rest 0 (tgtOcc + 1)
          else waitForStateAux conf rest 0 0

/-- The wait loop run from the initial counters. -/
def waitForState (conf : StateChangeConf) (obs : List RefreshObs) : WaitResult :=
  waitForStateAux conf obs 0 0

/-- A configuration with only the four required attributes set; every
optional attribute is the schema zero value (absent). -/
def cfgOnlyRequired : ResourceConfig :=
  { accountName := "acme"
    authenticationMethod := "IAM_IDENTITY_CENTER"
    edition := "ENTERPRISE"
    notificationEmail := "a@b.com"
    awsAccountId := ""
    activeDirectoryName := ""
    adminGroup := []
    authorGroup := []
    readerGroup := []
    contactNumber := ""
    directoryId := ""
    emailAddress := ""
    firstName := ""
    iamIdentityCenterInstanceArn := ""
    lastName := ""
    realm := "" }

/-- `cfgOnlyRequired` with an explicit `aws_account_id`. -/
def cfgExplicitId : ResourceConfig :=
  { cfgOnlyRequired with awsAccountId := "222222222222" }

/-- A concrete non-nil signup-result payload. -/
def sr0 : SignupResponse :=
  { iamUser := true, userLoginName := none, accountName := none, directoryType := none }

/-- A concrete fetched subscription with status `UNSUBSCRIBED`. -/
def infoUnsubscribed : AccountInfo :=
  { accountName := some "acme"
    accountSubscriptionStatus := some "UNSUBSCRIBED"
    authenticationType := none
    edition := "ENTERPRISE"
    iamIdentityCenterInstanceArn := none
    notificationEmail := some "a@b.com" }

/-- The request Create sends is always the one built from the
configuration, on every path. -/
theorem create_requestSent_eq (a : String) (cfg : ResourceConfig)
    (apiOut : Option CreateAccountSubscriptionOutput) (apiErr : Option ApiError)
    (waitRes : Option WaitFailure) :
    (resourceAccountSubscriptionCreate a cfg apiOut apiErr waitRes).requestSent =
      buildCreateInput a cfg := by
  cases apiErr with
  | some e => rfl
  | none =>
      cases apiOut with
      | none => rfl
      | some o =>
          cases h : o.signupResponse with
          | none => simp [resourceAccountSubscriptionCreate, h]
          | some sr =>
              cases waitRes with
              | none => simp [resourceAccountSubscriptionCreate, h]
              | some w => simp [resourceAccountSubscriptionCreate, h]

/-- The id after Create is either never set or the effective account id. -/
theorem create_idAfter_cases (a : String) (cfg : ResourceConfig)
    (apiOut : Option CreateAccountSubscriptionOutput) (apiErr : Option ApiError)
    (waitRes : Option WaitFailure) :
    (resourceAccountSubscriptionCreate a cfg apiOut apiErr waitRes).idAfter = none ∨
    (resourceAccountSubscriptionCreate a cfg apiOut apiErr waitRes).idAfter =
      some (effectiveAccountId a cfg) := by
  cases apiErr with
  | some e => left; rfl
  | none =>
      cases apiOut with
      | none => left; rfl
      | some o =>
          cases h : o.signupResponse with
          | none => left; simp [resourceAccountSubscriptionCreate, h]
          | some sr =>
              cases waitRes with
              | none => right; simp [resourceAccountSubscriptionCreate, h]
              | some w => right; simp [resourceAccountSubscriptionCreate, h]

/-- Claim C10: `findAccountSubscriptionByID` returns exactly one of a
result and an error: a nil error implies a non-nil `AccountInfo`
result (and conversely every error branch leaves the result nil), so
the status refresh and the read path never see a nil result with a nil
error. -/
theorem findAccountSubscriptionByID_exactly_one
    (out : Option DescribeAccountSubscriptionOutput) (err : Option ApiError) :
    ((findAccountSubscriptionByID out err).1.isSome = true ∧
      (findAccountSubscriptionByID out err).2 = none) ∨
    ((findAccountSubscriptionByID out err).1 = none ∧
      (findAccountSubscriptionByID out err).2.isSome = true) := by
  cases err with
  | some e =>
      cases e with
      | resourceNotFound => right; simp [findAccountSubscriptionByID]
      | other m => right; simp [findAccountSubscriptionByID]
  | none =>
      cases out with
      | none => right; simp [findAccountSubscriptionByID]
      | some o =>
          cases h : o.accountInfo with
          | none => right; simp [findAccountSubscriptionByID, h]
          | some info => left; simp [findAccountSubscriptionByID, h]

/-- Claim C1 (code bug): on an existing (non-new) resource, a generic
fetch error — neither a not-found fault nor a tolerated absence —
reaches the unsubscribed-status check, which dereferences the nil
`AccountInfo` pointer and panics before the generic error check can
return a ReadError; on a newly created resource the same error does
surface as a ReadError. -/
theorem read_generic_error_nil_dereference :
    resourceAccountSubscriptionRead false none
      (some (ApiError.other "AccessDeniedException")) = ReadOutcome.panicNilDeref ∧
    resourceAccountSubscriptionRead true none
      (some (ApiError.other "AccessDeniedException")) =
      ReadOutcome.readError (FindError.passthrough (ApiError.other "AccessDeniedException")) :=
  ⟨rfl, rfl⟩

/-- Claim C7: Read on an existing (non-new) resource whose fetch
succeeds with subscription status `UNSUBSCRIBED` clears the local id
and returns no error diagnostic (`ReadOutcome.cleared` is the
`d.SetId("")`-then-return path, which appends no diagnostic). -/
theorem read_unsubscribed_existing_clears_id
    (o : DescribeAccountSubscriptionOutput) (info : AccountInfo)
    (hinfo : o.accountInfo = some info)
    (hstat : info.accountSubscriptionStatus = some statusUnsuscribed) :
    resourceAccountSubscriptionRead false (some o) none = ReadOutcome.cleared := by
  simp [resourceAccountSubscriptionRead, findAccountSubscriptionByID, hinfo,
    tfresourceNotFound, hstat, awsToString]

/-- Witness for C7 at a concrete unsubscribed fetch result. -/
theorem read_unsubscribed_existing_clears_id_witness :
    resourceAccountSubscriptionRead false
      (some { accountInfo := some infoUnsubscribed }) none = ReadOutcome.cleared :=
  read_unsubscribed_existing_clears_id { accountInfo := some infoUnsubscribed }
    infoUnsubscribed rfl rfl

/-- Claim C8: Read on a newly created resource whose fetch reports a
not-found fault surfaces a ReadError diagnostic and does not clear the
local resource id, whatever the describe output value was. -/
theorem read_new_resource_notfound_errors
    (dOut : Option DescribeAccountSubscriptionOutput) :
    resourceAccountSubscriptionRead true dOut (some ApiError.resourceNotFound) =
      ReadOutcome.readError (FindError.notFound ApiError.resourceNotFound) ∧
    (resourceAccountSubscriptionRead true dOut
      (some ApiError.resourceNotFound)).clearsId = false := by
  constructor
  · simp [resourceAccountSubscriptionRead, findAccountSubscriptionByID,
      tfresourceNotFound, readTail]
  · simp [resourceAccountSubscriptionRead, findAccountSubscriptionByID,
      tfresourceNotFound, readTail, ReadOutcome.clearsId]

/-- Claim C9: Delete whose remote delete call reports a
resource-not-found fault returns success with zero diagnostics and
never invokes the unsubscribed-status wait, whatever that wait would
have produced. -/
theorem delete_notfound_idempotent (waitRes : Option WaitFailure) :
    resourceAccountSubscriptionDelete (some ApiError.resourceNotFound) waitRes =
      { diag := none, waitInvoked := false } := by
  rfl

/-- Claim C2: with the parameters src passes to the wait utility, the
create-wait tolerates up to 20 consecutive not-found fetches (recovering
afterwards) and gives up on the 21st, and succeeds only after the target
status (`ACCOUNT_CREATED` or `OK`) is observed twice in a row — a single
or non-consecutive target observation does not succeed; the delete-wait
succeeds on a single `UNSUBSCRIBED` observation and gives up on the
first not-found fetch. -/
theorem wait_polling_tolerances :
    waitForState waitAccountSubscriptionCreatedConf
      (List.replicate 20 RefreshObs.notFound ++
        [RefreshObs.status statusCreated, RefreshObs.status statusCreated]) =
      WaitResult.success ∧
    waitForState waitAccountSubscriptionCreatedConf
      (List.replicate 21 RefreshObs.notFound) = WaitResult.notFoundGaveUp ∧
    waitForState waitAccountSubscriptionCreatedConf
      [RefreshObs.status statusSignupAttemptInProgress,
       RefreshObs.status statusSignupAttemptInProgress,
       RefreshObs.status statusCreated, RefreshObs.status statusCreated] =
      WaitResult.success ∧
    waitForState waitAccountSubscriptionCreatedConf
      [RefreshObs.status statusOk, RefreshObs.status statusOk] = WaitResult.success ∧
    waitForState waitAccountSubscriptionCreatedConf
      [RefreshObs.status statusCreated] = WaitResult.timedOut ∧
    waitForState waitAccountSubscriptionCreatedConf
      [RefreshObs.status statusCreated, RefreshObs.status statusSignupAttemptInProgress,
       RefreshObs.status statusCreated] = WaitResult.timedOut ∧
    waitForState waitAccountSubscriptionDeletedConf
      [RefreshObs.status statusUnsuscribed] = WaitResult.success ∧
    waitForState waitAccountSubscriptionDeletedConf
      [RefreshObs.notFound] = WaitResult.notFoundGaveUp :=
  ⟨rfl, rfl, rfl, rfl, rfl, rfl, rfl, rfl⟩

/-- Counterexample to C3 as stated: a Create in which the remote call
succeeds with a full response but the post-create wait fails returns
the WaitError without performing the final read-back. -/
theorem create_wait_failure_skips_readback :
    (resourceAccountSubscriptionCreate "111111111111" cfgOnlyRequired
      (some { signupResponse := some sr0 }) none
      (some WaitFailure.timeout)).readPerformed = false ∧
    (resourceAccountSubscriptionCreate "111111111111" cfgOnlyRequired
      (some { signupResponse := some sr0 }) none
      (some WaitFailure.timeout)).diag = some CreateDiag.waitError :=
  ⟨rfl, rfl⟩

/-- Claim C3 amended: Create performs the final read-back exactly when
the remote create call returned no error, the response carried a
signup-result payload, and the post-create wait succeeded; on every
other path — including a wait failure — Create returns without the
read-back. -/
theorem create_readback_iff_full_success (a : String) (cfg : ResourceConfig)
    (apiOut : Option CreateAccountSubscriptionOutput) (apiErr : Option ApiError)
    (waitRes : Option WaitFailure) :
    (resourceAccountSubscriptionCreate a cfg apiOut apiErr waitRes).readPerformed = true ↔
      (apiErr = none ∧ (∃ o sr, apiOut = some o ∧ o.signupResponse = some sr) ∧
        waitRes = none) := by
  cases apiErr with
  | some e => simp [resourceAccountSubscriptionCreate]
  | none =>
      cases apiOut with
      | none => simp [resourceAccountSubscriptionCreate]
      | some o =>
          cases h : o.signupResponse with
          | none => simp [resourceAccountSubscriptionCreate, h]
          | some sr =>
              cases waitRes with
              | none => simp [resourceAccountSubscriptionCreate, h]
              | some w => simp [resourceAccountSubscriptionCreate, h]

/-- Claim C4: when the configuration supplies a non-empty
`aws_account_id`, Create puts that id in the create request and any id
it sets is that id; when the configuration omits it, the ambient caller
account id is used as both. -/
theorem create_uses_configured_or_ambient_account_id (a : String)
    (cfg : ResourceConfig) (apiOut : Option CreateAccountSubscriptionOutput)
    (apiErr : Option ApiError) (waitRes : Option WaitFailure) :
    (cfg.awsAccountId ≠ "" →
      ((resourceAccountSubscriptionCreate a cfg apiOut apiErr waitRes).requestSent.awsAccountId =
          some cfg.awsAccountId ∧
        ∀ x, (resourceAccountSubscriptionCreate a cfg apiOut apiErr waitRes).idAfter = some x →
          x = cfg.awsAccountId)) ∧
    (cfg.awsAccountId = "" →
      ((resourceAccountSubscriptionCreate a cfg apiOut apiErr waitRes).requestSent.awsAccountId =
          some a ∧
        ∀ x, (resourceAccountSubscriptionCreate a cfg apiOut apiErr waitRes).idAfter = some x →
          x = a)) := by
  have hreq := create_requestSent_eq a cfg apiOut apiErr waitRes
  have hid := create_idAfter_cases a cfg apiOut apiErr waitRes
  constructor
  · intro hne
    have heff : effectiveAccountId a cfg = cfg.awsAccountId := by
      simp [effectiveAccountId, getOkString, hne]
    refine ⟨by rw [hreq]; simp [buildCreateInput, heff], ?_⟩
    intro x hx
    rcases hid with h | h
    · rw [h] at hx; cases hx
    · rw [h, heff] at hx
      exact (Option.some.inj hx).symm
  · intro he
    have heff : effectiveAccountId a cfg = a := by
      simp [effectiveAccountId, getOkString, he]
    refine ⟨by rw [hreq]; simp [buildCreateInput, heff], ?_⟩
    intro x hx
    rcases hid with h | h
    · rw [h] at hx; cases hx
    · rw [h, heff] at hx
      exact (Option.some.inj hx).symm

/-- Witness for C4: an explicit id is used verbatim, an omitted one
falls back to the ambient account id. -/
theorem create_uses_configured_or_ambient_account_id_witness :
    (resourceAccountSubscriptionCreate "111111111111" cfgExplicitId none none
      none).requestSent.awsAccountId = some "222222222222" ∧
    (resourceAccountSubscriptionCreate "111111111111" cfgOnlyRequired none none
      none).requestSent.awsAccountId = some "111111111111" := by
  constructor
  · exact ((create_uses_configured_or_ambient_account_id "111111111111" cfgExplicitId
      none none none).1 (by decide)).1
  · exact ((create_uses_configured_or_ambient_account_id "111111111111" cfgOnlyRequired
      none none none).2 rfl).1

/-- Claim C5: with only the required attributes set, the constructed
create request carries the required fields and omits every optional
field — no empty-string or empty-list sentinel is placed in it. -/
theorem create_only_required_omits_optionals (an am ed ne a : String) :
    let cfg : ResourceConfig :=
      { accountName := an, authenticationMethod := am, edition := ed
        notificationEmail := ne, awsAccountId := "", activeDirectoryName := ""
        adminGroup := [], authorGroup := [], readerGroup := [], contactNumber := ""
        directoryId := "", emailAddress := "", firstName := ""
        iamIdentityCenterInstanceArn := "", lastName := "", realm := "" }
    let req := buildCreateInput a cfg
    req.activeDirectoryName = none ∧ req.adminGroup = none ∧ req.authorGroup = none ∧
      req.readerGroup = none ∧ req.contactNumber = none ∧ req.directoryId = none ∧
      req.emailAddress = none ∧ req.firstName = none ∧ req.lastName = none ∧
      req.iamIdentityCenterInstanceArn = none ∧ req.realm = none ∧
      req.accountName = some an ∧ req.notificationEmail = some ne ∧
      req.authenticationMethod = am ∧ req.edition = ed := by
  simp [buildCreateInput, getOkString, getOkList]

/-- Claim C6: a create-call error, or a success with a structurally
empty response (nil output or nil signup-result payload), yields a
CreateError diagnostic with the resource id left unset; after a
non-empty successful response the id is assigned to the effective
account id even when the subsequent wait fails (i.e. before the wait). -/
theorem create_error_leaves_id_unset (a : String) (cfg : ResourceConfig)
    (apiOut : Option CreateAccountSubscriptionOutput) (apiErr : Option ApiError)
    (waitRes : Option WaitFailure) :
    (apiErr.isSome = true →
      (resourceAccountSubscriptionCreate a cfg apiOut apiErr waitRes).diag =
        some CreateDiag.createError ∧
      (resourceAccountSubscriptionCreate a cfg apiOut apiErr waitRes).idAfter = none) ∧
    (apiErr = none →
      (apiOut = none ∨ (∃ o, apiOut = some o ∧ o.signupResponse = none)) →
      (resourceAccountSubscriptionCreate a cfg apiOut apiErr waitRes).diag =
        some CreateDiag.createError ∧
      (resourceAccountSubscriptionCreate a cfg apiOut apiErr waitRes).idAfter = none) ∧
    (∀ o sr, apiErr = none → apiOut = some o → o.signupResponse = some sr →
      (resourceAccountSubscriptionCreate a cfg apiOut apiErr waitRes).idAfter =
        some (effectiveAccountId a cfg)) := by
  refine ⟨?_, ?_, ?_⟩
  · intro h
    cases apiErr with
    | none => simp at h
    | some e => exact ⟨rfl, rfl⟩
  · intro he hout
    subst he
    rcases hout with h | ⟨o, ho, hsr⟩
    · subst h; exact ⟨rfl, rfl⟩
    · subst ho; simp [resourceAccountSubscriptionCreate, hsr]
  · intro o sr he ho hsr
    subst he; subst ho
    cases waitRes with
    | none => simp [resourceAccountSubscriptionCreate, hsr]
    | some w => simp [resourceAccountSubscriptionCreate, hsr]

/-- Witness for C6 at concrete inputs: a call error leaves the id
unset, an empty signup payload yields a CreateError, and a full
response assigns the id even though the wait then fails. -/
theorem create_error_leaves_id_unset_witness :
    (resourceAccountSubscriptionCreate "111111111111" cfgOnlyRequired none
      (some (ApiError.other "boom")) none).idAfter = none ∧
    (resourceAccountSubscriptionCreate "111111111111" cfgOnlyRequired
      (some { signupResponse := none }) none none).diag = some CreateDiag.createError ∧
    (resourceAccountSubscriptionCreate "111111111111" cfgOnlyRequired
      (some { signupResponse := some sr0 }) none (some WaitFailure.timeout)).idAfter =
      some (effectiveAccountId "111111111111" cfgOnlyRequired) := by
  refine ⟨?_, ?_, ?_⟩
  · exact ((create_error_leaves_id_unset "111111111111" cfgOnlyRequired none
      (some (ApiError.other "boom")) none).1 rfl).2
  · exact ((create_error_leaves_id_unset "111111111111" cfgOnlyRequired
      (some { signupResponse := none }) none none).2.1 rfl
      (Or.inr ⟨{ signupResponse := none }, rfl, rfl⟩)).1
  · exact (create_error_leaves_id_unset "111111111111" cfgOnlyRequired
      (some { signupResponse := some sr0 }) none (some WaitFailure.timeout)).2.2
      { signupResponse := some sr0 } sr0 rfl rfl rfl

end QuickSightAccountSubscription
